import Mathlib

/-!
Verification of the Katzenpost client reliable-delivery core.

This file shallowly embeds the three source files of the repository:

* `session/send.go`   — `Message`, `expiry`, `timeLeft`, `doSend`,
  `WaitForReply`, `SendMessage` (namespace `session`);
* `session/queue.go` (shipped inside `constants/constants.go`) — the
  `TimerQ` delay queue: `Push`, `Remove`, `forward`, one iteration of the
  `worker` loop (namespace `session`);
* the client session file (shipped inside `proxy/fetch.go`) — `onMessage`,
  `AddSURBKeys`, `onACK` (namespace `client`).

Modelling conventions:

* Machine integers and byte arrays are modelled as `Nat` / `List Nat`;
  Go `time.Time` and `time.Duration` are nanosecond counts (`Nat` for
  absolute instants and ETAs, `Int` where the source computes a possibly
  negative remaining duration).
* Go maps are association lists with overwrite-on-insert semantics
  (`lookupK` / `insertK` / `eraseK`).
* Randomness (fresh SURB identifiers, message identifiers), the transport
  (`minclient.SendCiphertext`), SURB decryption and the storage
  collaborator are environment effects: they enter the embedding as
  explicit parameters or oracle functions, so every definition stays
  executable.
* A Go `panic` (nil-map-entry dereference, nil-interface type assertion,
  explicit `panic(err)`) is modelled as an `Except.error` carrying a
  message beginning with `panic:`, or as a dedicated constructor.
* Pointer identity of `*Message` values is modelled by structural equality
  of the `Message` record; distinct allocated messages carry distinct
  random `ID`s, so this is faithful for the states considered here.
-/

namespace session

/-- `maxTransmissions` from `session/send.go`: the number of times message
retransmission will occur before giving up. -/
def maxTransmissions : Nat := 3

/-- The `Message` struct of `session/send.go`.  `ID` and `SURBID` stand for
the 16-byte message identifier and the SURB identifier; `SentAt` and
`ReplyETA` are nanosecond counts. -/
structure Message where
  ID : Nat
  Recipient : String
  Provider : String
  Payload : List Nat
  SentAt : Nat
  ReplyETA : Nat
  SURBID : Option Nat
  Key : List Nat
  Reply : List Nat
  SURBType : Nat
  Reliable : Bool
  Transmissions : Nat
deriving DecidableEq, Repr

/-- `Message.expiry` from `session/send.go`:
`SentAt + ReplyETA/2 + (Transmissions+1)*ReplyETA` in nanoseconds
(the Go code divides the `time.Duration` by 2 with integer division,
which on these non-negative values is `Nat` division). -/
def Message.expiry (m : Message) : Nat :=
  m.SentAt + m.ReplyETA / 2 + (m.Transmissions + 1) * m.ReplyETA

/-- `Message.timeLeft` from `session/send.go`:
`SentAt + ReplyETA - now`, a signed remaining duration. -/
def Message.timeLeft (m : Message) (now : Nat) : Int :=
  (m.SentAt : Int) + (m.ReplyETA : Int) - (now : Int)

end session

/-- Association-list lookup, the embedding of a Go map read. -/
def lookupK {α : Type} : List (Nat × α) → Nat → Option α
  | [], _ => none
  | (k, v) :: rest, k2 => if k = k2 then some v else lookupK rest k2

/-- Remove every binding of a key, the embedding of Go `delete(m, k)`. -/
def eraseK {α : Type} (m : List (Nat × α)) (k : Nat) : List (Nat × α) :=
  m.filter (fun p => p.1 != k)

/-- Overwriting insert, the embedding of a Go map assignment `m[k] = v`. -/
def insertK {α : Type} (m : List (Nat × α)) (k : Nat) (v : α) : List (Nat × α) :=
  (k, v) :: eraseK m k

namespace session

/-- Modelled from the spec: the `core/queue` PriorityQueue used by `TimerQ`
(absent from `src/`) holds `(priority, message)` pairs ordered by priority
ascending; `Enqueue` inserts keeping the order, `Peek` returns the minimum
without removing it, `Pop` removes it.  The queue is embedded as the sorted
list of its entries. -/
def priqEnqueue (q : List (Nat × Message)) (p : Nat) (m : Message) :
    List (Nat × Message) :=
  match q with
  | [] => [(p, m)]
  | (p1, m1) :: rest =>
      if p < p1 then (p, m) :: (p1, m1) :: rest
      else (p1, m1) :: priqEnqueue rest p m

/-- `TimerQ.Push` from the queue file: enqueues the message keyed by its
`expiry` (the `Signal` to the worker is a scheduling effect with no state
of its own here). -/
def TimerQPush (q : List (Nat × Message)) (m : Message) :
    List (Nat × Message) :=
  priqEnqueue q m.expiry m

/-- `TimerQ.Remove` from the queue file, translated branch for branch:

* if `Peek` returns a head and it is the argument message, `Pop` it
  (and `Signal` the worker);
* if `Peek` returns a head that is **not** the argument, the function
  falls through and returns `nil` without touching the queue;
* if the queue is empty, the `else` branch calls `priq.Remove(m.expiry())`,
  which yields `nil`, and the `switch` then evaluates the type assertion
  `mo.(*Message)` on that nil interface, which panics.  (The
  `default:` arm's `return fmt.Errorf(...)` and the `defer a.Push(...)`
  after it are unreachable.) -/
def TimerQRemove (q : List (Nat × Message)) (m : Message) :
    Except String (List (Nat × Message)) :=
  match q with
  | (p, mo) :: rest =>
      if mo = m then .ok rest else .ok ((p, mo) :: rest)
  | [] => .error "panic: nil interface type assertion in Remove"

/-- Result of `TimerQ.forward`: the queue was empty, the popped message was
pushed downstream, or the downstream `Push` errored and the worker
`panic(err)`ed. -/
inductive ForwardResult where
  | empty
  | pushed (m : Message)
  | panicked (e : String)
deriving DecidableEq, Repr

/-- `TimerQ.forward` from the queue file: pop the top item and push it to
the next queue; a `nil` pop returns silently, a downstream error is
`panic(err)`. -/
def forward (q : List (Nat × Message))
    (nextPush : Message → Except String Unit) :
    List (Nat × Message) × ForwardResult :=
  match q with
  | [] => ([], .empty)
  | (_, m) :: rest =>
      match nextPush m with
      | .ok _ => (rest, .pushed m)
      | .error e => (rest, .panicked e)

/-- What one iteration of the `TimerQ.worker` loop did. -/
inductive WorkerAction where
  | idle
  | waiting (d : Int)
  | forwarded (m : Message)
  | crashed (e : String)
deriving DecidableEq, Repr

/-- One iteration of `TimerQ.worker` at instant `now`: peek the head; when
`timeLeft` is negative, call `forward`; otherwise arm a timer for the
remaining duration (the `HaltCh`/`wakeupCh` select arms only reschedule and
carry no queue state). -/
def workerStep (q : List (Nat × Message)) (now : Nat)
    (nextPush : Message → Except String Unit) :
    List (Nat × Message) × WorkerAction :=
  match q with
  | [] => (q, .idle)
  | (_, msg) :: _ =>
      if msg.timeLeft now < 0 then
        match forward q nextPush with
        | (q2, .pushed m) => (q2, .forwarded m)
        | (q2, .panicked e) => (q2, .crashed e)
        | (q2, .empty) => (q2, .idle)
      else (q, .waiting (msg.timeLeft now))

/-- A downstream consumer whose `Push` always succeeds. -/
def pushAlwaysOk : Message → Except String Unit := fun _ => .ok ()

/-- The shared mutable state of a `Session` (`session/send.go`):
`surbIDMap` maps a SURB identifier to the pending message (identified by
its unique `ID`), `messageIDMap` and `replyNotifyMap` are keyed by message
identifier (`replyNotifyMap`'s value records that a mutex is registered
and whether it is held), `tqEntries` is the `TimerQ`'s priority queue. -/
structure SessionState where
  surbIDMap : List (Nat × Nat)
  messageIDMap : List (Nat × Message)
  replyNotifyMap : List (Nat × Bool)
  tqEntries : List (Nat × Message)
deriving DecidableEq, Repr

/-- `Session.doSend` from `session/send.go`, translated branch for branch.
The fresh random SURB identifier and the transport call
`minclient.SendCiphertext` (returning `(key, eta)` or an error) and the
current time are environment inputs.  On the early-return branch
(`Transmissions > 0` and `>= maxTransmissions`) the function returns `nil`
having touched nothing.  Otherwise it records the key, refreshes
`SentAt`/`ReplyETA`, increments `Transmissions`, pushes to the `TimerQ`
when `Reliable`, and inserts `surbID -> msg` into `surbIDMap`.  Note that
it neither assigns `msg.SURBID` nor deletes any previous `surbIDMap`
entry of the message. -/
def doSend (st : SessionState) (msg : Message) (surbID : Nat)
    (sendCiphertext : Except Unit (List Nat × Nat)) (now : Nat) :
    Except Unit (SessionState × Message) :=
  if msg.Transmissions > 0 ∧ msg.Transmissions ≥ maxTransmissions then
    .ok (st, msg)
  else
    match sendCiphertext with
    | .error e => .error e
    | .ok (key, eta) =>
        let msg2 : Message :=
          { msg with Key := key, SentAt := now, ReplyETA := eta,
                     Transmissions := msg.Transmissions + 1 }
        let st2 : SessionState :=
          if msg2.Reliable then
            { st with tqEntries := TimerQPush st.tqEntries msg2 }
          else st
        .ok ({ st2 with surbIDMap := insertK st2.surbIDMap surbID msg2.ID },
             msg2)

/-- `Session.WaitForReply` from `session/send.go`.  An unregistered message
identifier reads a `nil` `*sync.Mutex` out of `replyNotifyMap` and calls
`Lock` on it, a nil-pointer panic; similarly a missing `messageIDMap` entry
would dereference a `nil` `*Message`.  The blocking on the (locked) reply
mutex is a scheduling effect: the embedding gives the value the call
returns once the lock is released. -/
def WaitForReply (st : SessionState) (msgId : Nat) :
    Except String (List Nat) :=
  match lookupK st.replyNotifyMap msgId with
  | none => .error "panic: nil mutex dereference in WaitForReply"
  | some _ =>
      match lookupK st.messageIDMap msgId with
      | none => .error "panic: nil Message dereference in WaitForReply"
      | some m => .ok m.Reply

/-- `Session.SendMessage` from `session/send.go`, after `composeMessage`
has built the message (its random identifier and padded payload are
environment inputs carried by `msg`): sets `Reliable`, registers a fresh
**locked** reply mutex in `replyNotifyMap`, records the message in
`messageIDMap`, then pushes it onto the egress queue, whose outcome is the
environment input `pushOk`; the map registrations persist even when the
push fails. -/
def SendMessage (st : SessionState) (msg : Message) (reliable : Bool)
    (pushOk : Bool) : SessionState × Except Unit Nat :=
  let msg2 : Message := { msg with Reliable := reliable }
  let st2 : SessionState :=
    { st with replyNotifyMap := insertK st.replyNotifyMap msg2.ID true,
              messageIDMap := insertK st.messageIDMap msg2.ID msg2 }
  if pushOk then (st2, .ok msg2.ID) else (st2, .error ())

end session

namespace client

/-- A received, decrypted block (`minclient/block.Block` as carried by the
client session file): message identifier, block index, total-block count,
payload. -/
structure Block where
  MessageID : Nat
  BlockID : Nat
  TotalBlocks : Nat
  Payload : List Nat
deriving DecidableEq, Repr

/-- The `IngressBlock` struct of the client session file: a decrypted block
together with the sender's public key (modelled as a `Nat`).  The
`ToBytes`/`FromBytes` serialization round-trip through storage is
abstracted: storage holds the `IngressBlock` values themselves. -/
structure IngressBlock where
  SenderPubKey : Nat
  Block : Block
deriving DecidableEq, Repr

/-- The first stored block whose index is `i`. -/
def findBlock (blocks : List IngressBlock) (i : Nat) : Option IngressBlock :=
  blocks.find? (fun b => b.Block.BlockID == i)

/-- Modelled from the spec: `reassemble` is referenced by `onMessage` but
its definition is not in `src/`.  Per the spec, reassembly succeeds only
when fragments for every index `0..totalBlocks-1` are present, at which
point blocks are concatenated in index order; with fragments missing it
returns an error (and the Go `message` result is `nil`). -/
def reassemble (blocks : List IngressBlock) : Except Unit (List Nat) :=
  match blocks with
  | [] => .error ()
  | b :: _ =>
      let total := b.Block.TotalBlocks
      if (List.range total).all (fun i => (findBlock blocks i).isSome) then
        .ok ((((List.range total).filterMap (findBlock blocks)).map
          (fun ib => ib.Block.Payload)).flatten)
      else .error ()

/-- `Session.onMessage` from the client session file.  The environment
supplies the result of `block.DecryptBlock` (`(rBlock, senderPubKey)` or an
error).  Storage (`GetIngressBlocks` / `PutIngressBlock`) is the map from
message identifier to accumulated ingress blocks, with the byte
serialization round-trip abstracted.  The returned triple is the updated
storage, the list of `messageConsumer.ReceivedMessage` notifications the
call issued (sender, payload — `none` models a `nil` Go byte slice), and
the function's own return value.  Translated branch for branch: after a
failed `reassemble` the code stores the fragment and then **falls
through** to `ReceivedMessage(senderPubKey, message)` with the `nil`
message; there is no early return. -/
def onMessage (storage : List (Nat × List IngressBlock))
    (decryptBlock : Except Unit (Block × Nat)) :
    List (Nat × List IngressBlock) × List (Nat × Option (List Nat)) ×
      Except Unit Unit :=
  match decryptBlock with
  | .error e => (storage, [], .error e)
  | .ok (rBlock, senderPubKey) =>
      if rBlock.TotalBlocks = 1 then
        (storage, [(senderPubKey, some rBlock.Payload)], .ok ())
      else
        let ingressBlock : IngressBlock :=
          { SenderPubKey := senderPubKey, Block := rBlock }
        let rawStoredBlocks := (lookupK storage rBlock.MessageID).getD []
        let rawBlocks := rawStoredBlocks ++ [ingressBlock]
        match reassemble rawBlocks with
        | .ok message =>
            (storage, [(senderPubKey, some message)], .ok ())
        | .error _ =>
            (insertK storage rBlock.MessageID rawBlocks,
             [(senderPubKey, none)], .ok ())

/-- The `EgressBlock` fields `AddSURBKeys` reads: the manifest's own SURB
identifier and the SURB decryption keys. -/
structure EgressBlock where
  SURBID : Nat
  SURBKeys : List Nat
deriving DecidableEq, Repr

/-- The shared state the ACK path uses: `surbKeyMap` maps a SURB
identifier to its decryption keys. -/
structure ClientState where
  surbKeyMap : List (Nat × List Nat)
deriving DecidableEq, Repr

/-- `Session.AddSURBKeys` from the client session file, translated branch
for branch: it tests whether `surbKeyManifest.SURBID` is already present in
`surbKeyMap` — note, the manifest's field, not the `surbid` argument — and
on a hit returns the "already present" error; otherwise it inserts the keys
at `surbid` and records them with the storage collaborator (an external
effect with no state here, assumed to succeed). -/
def AddSURBKeys (st : ClientState) (surbid : Nat)
    (surbKeyManifest : EgressBlock) : Except String ClientState :=
  match lookupK st.surbKeyMap surbKeyManifest.SURBID with
  | some _ => .error "failure: SURB ID already present in surbKeyMap"
  | none =>
      .ok { st with
            surbKeyMap := insertK st.surbKeyMap surbid surbKeyManifest.SURBKeys }

/-- `utils.CtIsZero` (core collaborator): the plaintext is all zero
bytes. -/
def ctIsZero (pt : List Nat) : Bool := pt.all (fun b => b == 0)

/-- How a call of `onACK` ended; `cancelled` means
`arqScheduler.CancelRetransmission` was invoked (its own error, if any, is
only logged).  Every outcome corresponds to a `return nil` of the Go
function. -/
inductive AckOutcome where
  | unknownSURB
  | storageError
  | decryptError
  | nonZeroPayload
  | cancelled
deriving DecidableEq, Repr

/-- `Session.onACK` from the client session file, translated branch for
branch: look the SURB identifier up in `surbKeyMap` (absent: log, return
`nil`); delete it from the map; remove it from storage (the environment
input `storageRemoveOk` — on failure log and return `nil`); decrypt the
SURB payload with `sphinx.DecryptSURBPayload` (the oracle `decryptSURB`,
applied to the ciphertext and the stored keys — on failure log and return
`nil`); require the plaintext to be all zero (otherwise log and return
`nil`); finally invoke `CancelRetransmission`. -/
def onACK (st : ClientState) (surbid : Nat) (message : List Nat)
    (decryptSURB : List Nat → List Nat → Except Unit (List Nat))
    (storageRemoveOk : Bool) : ClientState × AckOutcome :=
  match lookupK st.surbKeyMap surbid with
  | none => (st, .unknownSURB)
  | some surbKeys =>
      let st2 : ClientState :=
        { st with surbKeyMap := eraseK st.surbKeyMap surbid }
      if storageRemoveOk then
        match decryptSURB message surbKeys with
        | .error _ => (st2, .decryptError)
        | .ok plaintext =>
            if ctIsZero plaintext then (st2, .cancelled)
            else (st2, .nonZeroPayload)
      else (st2, .storageError)

end client

/-! Concrete states used to evaluate the definitions. -/

/-- A fresh reliable message as `composeMessage` builds it (identifier 42,
no transmissions yet). -/
def msgA : session.Message :=
  { ID := 42, Recipient := "alice", Provider := "p1", Payload := [1],
    SentAt := 0, ReplyETA := 0, SURBID := none, Key := [], Reply := [5],
    SURBType := 0, Reliable := true, Transmissions := 0 }

/-- The empty session state. -/
def st0 : session.SessionState :=
  { surbIDMap := [], messageIDMap := [], replyNotifyMap := [], tqEntries := [] }

/-- A reliable message whose retry budget is exhausted
(`Transmissions = maxTransmissions = 3`). -/
def msgExhausted : session.Message :=
  { msgA with Reply := [], Transmissions := 3 }

/-- A session state holding `msgExhausted` in every correlator map, with
its reply mutex still locked, at the moment its retransmission fires. -/
def stExhausted : session.SessionState :=
  { surbIDMap := [(7, 42)], messageIDMap := [(42, msgExhausted)],
    replyNotifyMap := [(42, true)], tqEntries := [] }

/-- Pending message with deadline (`expiry`) 150. -/
def m1C3 : session.Message :=
  { msgA with ID := 11, ReplyETA := 100 }

/-- Pending message with deadline (`expiry`) 300, behind `m1C3`. -/
def m2C3 : session.Message :=
  { msgA with ID := 12, ReplyETA := 200 }

/-- The delay queue holding `m1C3` then `m2C3`. -/
def qC3 : List (Nat × session.Message) :=
  session.TimerQPush (session.TimerQPush [] m1C3) m2C3

/-- Pending message with `SentAt = 0`, `ReplyETA = 2000`,
`Transmissions = 0`, so its queue key `expiry` is 3000. -/
def msgC5 : session.Message :=
  { msgA with ID := 13, ReplyETA := 2000 }

/-- The delay queue holding just `msgC5` under its `expiry` key. -/
def qC5 : List (Nat × session.Message) := [(session.Message.expiry msgC5, msgC5)]

/-- A pending message sitting at the head of the delay queue. -/
def m9 : session.Message := { msgA with ID := 14 }

/-- A downstream consumer whose `Push` always fails. -/
def pushBoom : session.Message → Except String Unit := fun _ => .error "boom"

/-- A message registered by `SendMessage` in the `WaitForReply` scenario. -/
def msgC10 : session.Message := { msgA with ID := 5, Reply := [9] }

/-- Client state whose correlator holds SURB identifier 5 with keys `[9]`. -/
def stC4 : client.ClientState := { surbKeyMap := [(5, [9])] }

/-- A SURB decryption oracle that yields the all-zero sentinel. -/
def decZero : List Nat → List Nat → Except Unit (List Nat) :=
  fun _ _ => .ok [0, 0]

/-- Client state whose correlator already holds SURB identifier 1. -/
def stC8 : client.ClientState := { surbKeyMap := [(1, [3])] }

/-- An egress-block manifest naming SURB identifier 2. -/
def manifestC8 : client.EgressBlock := { SURBID := 2, SURBKeys := [4] }

/-- An egress-block manifest naming SURB identifier 1. -/
def manifestC8b : client.EgressBlock := { SURBID := 1, SURBKeys := [4] }

/-- Block 0 of the 3-block inbound message 9. -/
def b0C6 : client.Block :=
  { MessageID := 9, BlockID := 0, TotalBlocks := 3, Payload := [10] }

/-- Block 1 of the 3-block inbound message 9. -/
def b1C6 : client.Block :=
  { MessageID := 9, BlockID := 1, TotalBlocks := 3, Payload := [11] }

/-- Block 2 of the 3-block inbound message 9. -/
def b2C6 : client.Block :=
  { MessageID := 9, BlockID := 2, TotalBlocks := 3, Payload := [12] }

/-- Ingress fragment for block 0 from sender 3. -/
def ib0C6 : client.IngressBlock := { SenderPubKey := 3, Block := b0C6 }

/-- Ingress fragment for block 1 from sender 3. -/
def ib1C6 : client.IngressBlock := { SenderPubKey := 3, Block := b1C6 }

/-- Ingress fragment for block 2 from sender 3. -/
def ib2C6 : client.IngressBlock := { SenderPubKey := 3, Block := b2C6 }

/-!  Theorems settling the claims. -/

/-- Claim C1: the claim says a successful `doSend` replaces the message's
old `surbID` and invalidates it in the correlator, so an ACK bearing a SURB
identifier from an earlier transmission is never matched.  Evaluating the
code at the failing input — message 42 sent and then retransmitted once
with fresh SURB identifiers 1 and 2 — shows `surbIDMap` still maps the old
identifier 1 to the message after the retransmission (and `msg.SURBID` is
never even assigned), so a stale ACK bearing identifier 1 is still matched
to the message: `doSend` never removes the superseded entry, contradicting
its own `XXX: remove the old surb from map, it has expired` comment. -/
theorem doSend_stale_surb_remains :
    ∃ st1 m1 st2 m2,
      session.doSend st0 msgA 1 (.ok ([7], 2000)) 100 = .ok (st1, m1) ∧
      session.doSend st1 m1 2 (.ok ([8], 2000)) 5000 = .ok (st2, m2) ∧
      lookupK st2.surbIDMap 1 = some msgA.ID ∧
      lookupK st2.surbIDMap 2 = some msgA.ID ∧
      m2.SURBID = none :=
  ⟨_, _, _, _, rfl, rfl, rfl, rfl, rfl⟩

/-- Claim C2: the claim says a reliable message whose retransmission fires
with `transmissions ≥ maxTransmissions` is abandoned — removed from all
correlator maps and the delay queue, with blocked `WaitForReply` callers
unblocked with a permanent failure.  Evaluating the code at the failing
input — `msgExhausted` with `Transmissions = 3` in `stExhausted` — shows
`doSend` returns `nil` with the state bit-for-bit unchanged: the message
stays in `surbIDMap` and `messageIDMap` and its reply mutex stays locked,
so a `WaitForReply` caller blocks forever, contradicting the code's own
`XXX: return failure upstream somehow` comment. -/
theorem doSend_abandon_is_silent_noop :
    session.doSend stExhausted msgExhausted 9 (.ok ([1], 500)) 50 =
      .ok (stExhausted, msgExhausted) ∧
    lookupK stExhausted.replyNotifyMap 42 = some true ∧
    lookupK stExhausted.surbIDMap 7 = some 42 ∧
    lookupK stExhausted.messageIDMap 42 = some msgExhausted :=
  ⟨rfl, rfl, rfl, rfl⟩

/-- Claim C3: the claim says an item for which `Remove` was called before
it was forwarded is never forwarded, and `Remove` of an already
fired/removed entry is a no-op returning no error.  Evaluating the code at
the failing input — queue `[(150, m1C3), (300, m2C3)]`, `Remove m2C3` —
shows `Remove` of the non-head entry silently returns `nil` leaving the
queue unchanged, and the worker subsequently forwards the removed `m2C3`;
moreover `Remove` on the empty queue (entry already fired) panics on a
nil-interface type assertion instead of being a no-op. -/
theorem TimerQRemove_nonhead_noop_forwarded :
    qC3 = [(150, m1C3), (300, m2C3)] ∧
    session.TimerQRemove qC3 m2C3 = .ok qC3 ∧
    session.workerStep qC3 1000 session.pushAlwaysOk =
      ([(300, m2C3)], .forwarded m1C3) ∧
    session.workerStep [(300, m2C3)] 1000 session.pushAlwaysOk =
      ([], .forwarded m2C3) ∧
    session.TimerQRemove [] m2C3 =
      .error "panic: nil interface type assertion in Remove" :=
  ⟨rfl, rfl, rfl, rfl, rfl⟩

/-- Claim C5: the claim says the worker fires a delay-queue entry when the
deadline `sentAt + replyETA/2 + (transmissions+1)*replyETA` (the entry's
queue key) elapses.  Evaluating the code at the failing input — `msgC5`
with `SentAt = 0`, `ReplyETA = 2000`, `Transmissions = 0`, queue key
`expiry = 3000` — shows the worker still waits at instant 2000 but
forwards at instant 2001, long before the computed deadline 3000: the
firing test is `timeLeft = sentAt + replyETA - now < 0`, not the expiry
key the queue is ordered by. -/
theorem workerStep_fires_before_expiry :
    session.Message.expiry msgC5 = 3000 ∧
    session.workerStep qC5 2000 session.pushAlwaysOk = (qC5, .waiting 0) ∧
    session.workerStep qC5 2001 session.pushAlwaysOk = ([], .forwarded msgC5) ∧
    (2001 : Nat) < session.Message.expiry msgC5 :=
  ⟨rfl, rfl, rfl, by decide⟩

/-- Claim C7: `doSend` keeps `0 ≤ Transmissions ≤ maxTransmissions`
invariant (the lower bound is carried by the `Nat` count): from any message
satisfying the invariant, a successful `doSend` yields a message still
within the bound, and on the abandonment branch
(`Transmissions ≥ maxTransmissions`) the message is returned untouched
with `Transmissions` equal to exactly `maxTransmissions` — the count is
never incremented past the limit. -/
theorem doSend_transmissions_bounded
    (st : session.SessionState) (msg : session.Message) (surbID : Nat)
    (sendCiphertext : Except Unit (List Nat × Nat)) (now : Nat)
    (st2 : session.SessionState) (msg2 : session.Message)
    (hinv : msg.Transmissions ≤ session.maxTransmissions)
    (hrun : session.doSend st msg surbID sendCiphertext now = .ok (st2, msg2)) :
    msg2.Transmissions ≤ session.maxTransmissions ∧
    (msg.Transmissions ≥ session.maxTransmissions →
      msg2 = msg ∧ msg2.Transmissions = session.maxTransmissions) := by
  unfold session.doSend at hrun
  by_cases h : msg.Transmissions > 0 ∧ msg.Transmissions ≥ session.maxTransmissions
  · rw [if_pos h] at hrun
    simp only [Except.ok.injEq, Prod.mk.injEq] at hrun
    obtain ⟨hst, hmsg⟩ := hrun
    subst hmsg
    exact ⟨hinv, fun hge => ⟨rfl, le_antisymm hinv hge⟩⟩
  · rw [if_neg h] at hrun
    cases hsc : sendCiphertext with
    | error e => rw [hsc] at hrun; exact absurd hrun (by simp)
    | ok p =>
        obtain ⟨key, eta⟩ := p
        rw [hsc] at hrun
        simp only [Except.ok.injEq, Prod.mk.injEq] at hrun
        obtain ⟨hst, hmsg⟩ := hrun
        subst hmsg
        simp only [session.maxTransmissions] at *
        constructor
        · simp only [gt_iff_lt, not_and, not_le] at h
          omega
        · intro hge
          simp only [gt_iff_lt, not_and, not_le] at h
          omega

/-- Claim C7 witness: at the exhausted message `msgExhausted`
(`Transmissions = 3`) the invariant theorem yields
`Transmissions ≤ maxTransmissions` and, since the abandonment branch was
taken, `Transmissions = maxTransmissions` exactly. -/
theorem doSend_transmissions_bounded_witness :
    msgExhausted.Transmissions ≤ session.maxTransmissions ∧
    msgExhausted.Transmissions = session.maxTransmissions := by
  have h := doSend_transmissions_bounded stExhausted msgExhausted 9
    (.ok ([1], 500)) 50 stExhausted msgExhausted (by decide) rfl
  exact ⟨h.1, (h.2 (by decide)).2⟩

/-- Claim C9 counterexample: the claim says a failing downstream `Push` is
reported and the worker loop continues.  At the concrete queue `[(1, m9)]`
with a consumer whose `Push` errors, `forward` runs `panic(err)`: the
worker crashes instead of continuing. -/
theorem forward_panics_on_push_error :
    session.forward [(1, m9)] pushBoom = ([], .panicked "boom") := rfl

/-- Claim C9 amended: when the downstream consumer's `Push` returns an
error, the failure is not swallowed — `forward` panics carrying exactly
that error, aborting the worker loop rather than continuing — and when
`Push` succeeds the item is forwarded and the loop goes on; a fired head
whose push fails crashes the worker iteration the same way. -/
theorem forward_push_error_panics
    (p : Nat) (m : session.Message) (rest : List (Nat × session.Message))
    (nextPush : session.Message → Except String Unit) :
    (∀ e, nextPush m = .error e →
      session.forward ((p, m) :: rest) nextPush = (rest, .panicked e)) ∧
    (nextPush m = .ok () →
      session.forward ((p, m) :: rest) nextPush = (rest, .pushed m)) ∧
    (∀ now e, m.timeLeft now < 0 → nextPush m = .error e →
      session.workerStep ((p, m) :: rest) now nextPush = (rest, .crashed e)) := by
  refine ⟨fun e h => ?_, fun h => ?_, fun now e hfire h => ?_⟩
  · simp [session.forward, h]
  · simp [session.forward, h]
  · simp [session.workerStep, session.forward, hfire, h]

/-- Claim C9 witness: instantiating the amended theorem at the concrete
queue `[(1, m9)]` with the failing and the succeeding consumer. -/
theorem forward_push_error_panics_witness :
    session.forward [(1, m9)] pushBoom = ([], .panicked "boom") ∧
    session.forward [(1, m9)] session.pushAlwaysOk = ([], .pushed m9) :=
  ⟨(forward_push_error_panics 1 m9 [] pushBoom).1 "boom" rfl,
   (forward_push_error_panics 1 m9 [] session.pushAlwaysOk).2.1 rfl⟩

/-- Claim C10: `WaitForReply` with a message identifier absent from
`replyNotifyMap` reads a `nil` mutex and faults on dereference; after
`SendMessage` has registered the identifier (whatever the egress-push
outcome), `WaitForReply` returns the message's reply without fault. -/
theorem WaitForReply_unregistered_faults
    (st : session.SessionState) (msgId : Nat) :
    (lookupK st.replyNotifyMap msgId = none →
      session.WaitForReply st msgId =
        .error "panic: nil mutex dereference in WaitForReply") ∧
    (∀ msg : session.Message, ∀ reliable pushOk : Bool, msg.ID = msgId →
      session.WaitForReply (session.SendMessage st msg reliable pushOk).1
        msgId = .ok msg.Reply) := by
  constructor
  · intro h
    unfold session.WaitForReply
    rw [h]
  · intro msg reliable pushOk hid
    subst hid
    unfold session.SendMessage session.WaitForReply
    cases pushOk <;> simp [insertK, lookupK]

/-- Claim C10 witness: on the empty session state, `WaitForReply 5` faults;
after `SendMessage` registers message 5, it returns that message's
reply. -/
theorem WaitForReply_unregistered_faults_witness :
    session.WaitForReply st0 5 =
      .error "panic: nil mutex dereference in WaitForReply" ∧
    session.WaitForReply (session.SendMessage st0 msgC10 true true).1 5 =
      .ok msgC10.Reply :=
  ⟨(WaitForReply_unregistered_faults st0 5).1 rfl,
   (WaitForReply_unregistered_faults st0 5).2 msgC10 true true rfl⟩

/-- Claim C4 counterexample: the claim as stated says that whenever the
SURB identifier is present, cancellation happens **iff** the payload
decrypts to all zeros.  At the concrete input — identifier 5 present with
keys `[9]`, an oracle decrypting to the all-zero sentinel, but the storage
removal of the SURB key failing — `onACK` returns after logging the
storage error and never invokes the cancellation, refuting the claim as
stated. -/
theorem onACK_storage_failure_not_cancelled :
    lookupK stC4.surbKeyMap 5 = some [9] ∧
    decZero [1] [9] = .ok [0, 0] ∧
    client.ctIsZero [0, 0] = true ∧
    client.onACK stC4 5 [1] decZero false =
      ({ surbKeyMap := [] }, .storageError) ∧
    (client.onACK stC4 5 [1] decZero false).2 ≠ .cancelled :=
  ⟨rfl, rfl, rfl, rfl, by decide⟩

/-- Claim C4 amended: for every ACK whose SURB identifier is present in
the correlator and whose storage SURB-key removal succeeds, the
retransmission cancellation is invoked if and only if the SURB payload
decrypts successfully and the plaintext is all zero bytes; on a decrypt
failure or a non-zero byte the violation is logged and cancellation is not
invoked, leaving the pending retransmission in place. -/
theorem onACK_cancel_iff_zero_plaintext
    (st : client.ClientState) (surbid : Nat) (message : List Nat)
    (decryptSURB : List Nat → List Nat → Except Unit (List Nat))
    (keys : List Nat)
    (hin : lookupK st.surbKeyMap surbid = some keys) :
    (client.onACK st surbid message decryptSURB true).2 =
        client.AckOutcome.cancelled ↔
      ∃ pt, decryptSURB message keys = .ok pt ∧ client.ctIsZero pt = true := by
  cases hd : decryptSURB message keys with
  | error e => simp [client.onACK, hin, hd]
  | ok pt =>
      by_cases hz : client.ctIsZero pt = true
      · simp [client.onACK, hin, hd, hz]
      · simp [client.onACK, hin, hd, hz]

/-- Claim C4 witness: with identifier 5 present, a succeeding storage
removal and the all-zero decryption oracle, `onACK` invokes the
cancellation. -/
theorem onACK_cancel_iff_zero_plaintext_witness :
    (client.onACK stC4 5 [1] decZero true).2 = client.AckOutcome.cancelled :=
  (onACK_cancel_iff_zero_plaintext stC4 5 [1] decZero [9] rfl).mpr
    ⟨[0, 0], rfl, rfl⟩

/-- Claim C6: the claim says no consumer notification fires for a
multi-block message until every fragment has arrived.  Evaluating the code
at the failing input — 3-block message 9 with block 0 stored and block 2
arriving while block 1 is still missing — shows reassembly fails, the
fragment is persisted, and `onMessage` then **still** calls
`messageConsumer.ReceivedMessage` with the `nil` message of the failed
reassembly (the early return is missing).  Once all three blocks are
present, exactly one notification fires with the payloads concatenated in
index order. -/
theorem onMessage_notifies_on_missing_fragment :
    client.reassemble [ib0C6, ib2C6] = .error () ∧
    client.onMessage [(9, [ib0C6])] (.ok (b2C6, 3)) =
      ([(9, [ib0C6, ib2C6])], [(3, none)], .ok ()) ∧
    client.onMessage [(9, [ib0C6, ib1C6])] (.ok (b2C6, 3)) =
      ([(9, [ib0C6, ib1C6])], [(3, some [10, 11, 12])], .ok ()) :=
  ⟨rfl, rfl, rfl⟩

/-- Claim C8: the claim says registering an already-present SURB
identifier is rejected with an error.  Evaluating the code at the failing
input — `surbKeyMap` already holding identifier 1, `AddSURBKeys` called
with `surbid = 1` but a manifest naming identifier 2 — shows the presence
check reads `surbKeyManifest.SURBID` instead of the `surbid` key it then
inserts: the already-present identifier 1 is silently overwritten with the
new keys, and conversely registering the fresh identifier 7 under a
manifest naming the present identifier 1 is spuriously rejected. -/
theorem AddSURBKeys_checks_wrong_key :
    lookupK stC8.surbKeyMap 1 = some [3] ∧
    lookupK stC8.surbKeyMap 2 = none ∧
    client.AddSURBKeys stC8 1 manifestC8 = .ok { surbKeyMap := [(1, [4])] } ∧
    client.AddSURBKeys stC8 7 manifestC8b =
      .error "failure: SURB ID already present in surbKeyMap" :=
  ⟨rfl, rfl, rfl, rfl⟩
